import Mathlib

set_option maxHeartbeats 1000000

/-!
Shallow embedding of the ledger operations of the Quickbooks-alt repository
(files src/App.py and src/app.py) together with proofs about the claims on
its specification.

Modelling conventions:
* Amounts are exact rationals.  The forms read them from a decimal number
  input with step 0.01; the specification treats them as decimal values.
* Dates are integers (ordinal day numbers).  The code converts the date
  column with pd.to_datetime before comparing or sorting, which preserves
  the calendar order, so only the order of dates matters here.
* The transaction type comes from a two-option selectbox offering exactly
  "Income" and "Expense", so it is modelled as a two-constructor type.
* Raised errors (the validation messages of the forms and the IndexError
  of the list operations) are modelled as explicitly returned error values;
  the operations return the collection together with the error report, so
  that "the collection is unchanged on failure" is a statement about the
  returned pair.
-/

/-- Transaction type as offered by the Type selectbox of both source files:
exactly the two values Income and Expense. -/
inductive TxType where
  | Income
  | Expense
deriving DecidableEq, Repr

/-- A transaction record as appended by add_transaction in src/App.py
(lines 17-26): the dictionary with keys Type, Description, Amount,
Category, Subcategory, Date and Notes.  Records built by add_transaction
always carry every key, so the key-filling cleanup loop at the start of
calculate_running_balance (lines 52-58) is the identity on them and the
model keeps total fields. -/
structure Tx where
  type : TxType
  description : String
  amount : ℚ
  category : String
  subcategory : String
  date : ℤ
  notes : String
deriving DecidableEq, Repr

/-- A transaction record as appended by add_transaction in src/app.py
(lines 16-23): the five-key dictionary without date and notes. -/
structure TxSimple where
  type : TxType
  description : String
  amount : ℚ
  category : String
  subcategory : String
deriving DecidableEq, Repr

/-- Embedding of add_transaction (src/App.py:17-26): append one record,
built from the given field values, at the end of the collection.  The
helper performs no validation of any field. -/
def add_transaction (tx_type : TxType) (description : String) (amount : ℚ)
    (category subcategory : String) (tx_date : ℤ) (notes : String)
    (txs : List Tx) : List Tx :=
  txs.concat
    { type := tx_type, description := description, amount := amount,
      category := category, subcategory := subcategory,
      date := tx_date, notes := notes }

/-- Embedding of add_transaction (src/app.py:16-23): the five-field
variant, again a plain unvalidated append. -/
def add_transaction_simple (tx_type : TxType) (description : String)
    (amount : ℚ) (category subcategory : String)
    (txs : List TxSimple) : List TxSimple :=
  txs.concat
    { type := tx_type, description := description, amount := amount,
      category := category, subcategory := subcategory }

/-- Embedding of edit_transaction (src/App.py:28-29): assign the new record
at the given position.  Python raises IndexError when the position is out
of range and leaves the list untouched; the model returns the unchanged
collection together with the offending identity.  Identities issued by the
application are the nonnegative frame positions, so the model uses natural
number indices. -/
def edit_transaction (index : ℕ) (tx : Tx) (txs : List Tx) :
    List Tx × Option ℕ :=
  if index < txs.length then (txs.set index tx, none) else (txs, some index)

/-- Embedding of delete_transaction (src/App.py:31-32): pop the record at
the given position, shifting every later record down by one.  Python
raises IndexError when the position is out of range and leaves the list
untouched; the model returns the unchanged collection together with the
offending identity. -/
def delete_transaction (index : ℕ) (txs : List Tx) : List Tx × Option ℕ :=
  if index < txs.length then (txs.eraseIdx index, none) else (txs, some index)

/-- Insertion step of the stable date sort: place the new record before
the first already-sorted record whose date is not strictly smaller. -/
def insertByDate (tx : Tx) : List Tx → List Tx
  | [] => [tx]
  | y :: ys => if y.date < tx.date then y :: insertByDate tx ys else tx :: y :: ys

/-- Model of df.sort_values("Date") in calculate_running_balance
(src/App.py:69): sort the records by date ascending.  The pandas default
sort kind (quicksort) guarantees only that the result is a date-ascending
permutation of the rows, not any particular order among rows sharing a
date, so the embedding has to fix one concrete tie order and uses frame
order; this coincides with the program on the small frames evaluated
concretely in this file, where the numpy introsort falls back to a stable
insertion sort, and no universally quantified theorem below depends on
the tie order. -/
def sortByDate : List Tx → List Tx
  | [] => []
  | tx :: txs => insertByDate tx (sortByDate txs)

/-- Balance column loop of calculate_running_balance (src/App.py:67-74)
starting from the given balance: for each row in the given order, add the
amount for Income and subtract it otherwise, recording the balance after
the row. -/
def balancesFrom (b : ℚ) : List Tx → List ℚ
  | [] => []
  | tx :: txs =>
      let b2 := if tx.type = TxType.Income then b + tx.amount else b - tx.amount
      b2 :: balancesFrom b2 txs

/-- Balance column of calculate_running_balance: the loop starts from the
balance 0. -/
def balances (txs : List Tx) : List ℚ := balancesFrom 0 txs

/-- Embedding of calculate_running_balance (src/App.py:50-76).  The frame
is built from the session list in insertion order; the balance list is
computed by iterating over a date-sorted copy (df.sort_values returns a
copy and df itself is never reassigned); the final column assignment
df["Running Balance"] = balances pairs the balance list with the frame
positionally, that is with the rows in insertion order. -/
def calculate_running_balance (txs : List Tx) : List (Tx × ℚ) :=
  txs.zip (balances (sortByDate txs))

/-- Total income of the Dashboard (src/App.py:92): sum of the amounts of
the records whose type is Income. -/
def total_income (txs : List Tx) : ℚ :=
  ((txs.filter fun tx => decide (tx.type = TxType.Income)).map Tx.amount).sum

/-- Total expense of the Dashboard (src/App.py:93): sum of the amounts of
the records whose type is Expense. -/
def total_expense (txs : List Tx) : ℚ :=
  ((txs.filter fun tx => decide (tx.type = TxType.Expense)).map Tx.amount).sum

/-- Summary triple of the Dashboard (src/App.py:92-94): total income,
total expense and their difference as the net balance. -/
def summary (txs : List Tx) : ℚ × ℚ × ℚ :=
  (total_income txs, total_expense txs, total_income txs - total_expense txs)

/-- Field reported by the first failing validation check of the
transaction forms. -/
inductive VField where
  | description
  | amount
deriving DecidableEq, Repr

/-- Embedding of the submit branch of the transaction forms
(src/App.py:141-148 and 166-173, src/app.py:102-109): an empty description
reports the description field; otherwise a non-positive amount reports the
amount field; otherwise add_transaction appends the record.  The result is
the (possibly unchanged) collection together with the reported field, if
any.  The type value comes from the two-option selectbox, so no check on
it exists in the source. -/
def form_submit (tx_type : TxType) (description : String) (amount : ℚ)
    (category subcategory : String) (tx_date : ℤ) (notes : String)
    (txs : List Tx) : List Tx × Option VField :=
  if description = "" then (txs, some VField.description)
  else if amount ≤ 0 then (txs, some VField.amount)
  else (add_transaction tx_type description amount category subcategory tx_date notes txs,
        none)

/-- Regular expressions of the subset modelled for the pandas keyword
search: literal characters, the wildcard dot, concatenation, alternation
and iteration.  The postfix operators plus and question are desugared to
this core by the pattern reader. -/
inductive RE where
  | emp
  | eps
  | chr (c : Char)
  | dot
  | seq (a b : RE)
  | alt (a b : RE)
  | star (a : RE)
deriving DecidableEq, Repr

/-- Nullability: whether the expression accepts the empty word. -/
def RE.nullable : RE → Bool
  | .emp => false
  | .eps => true
  | .chr _ => false
  | .dot => false
  | .seq a b => a.nullable && b.nullable
  | .alt a b => a.nullable || b.nullable
  | .star _ => true

/-- Brzozowski derivative of the expression by one character. -/
def RE.deriv : RE → Char → RE
  | .emp, _ => .emp
  | .eps, _ => .emp
  | .chr c, x => if c = x then .eps else .emp
  | .dot, _ => .eps
  | .seq a b, x =>
      if a.nullable then .alt (.seq (a.deriv x) b) (b.deriv x)
      else .seq (a.deriv x) b
  | .alt a b, x => .alt (a.deriv x) (b.deriv x)
  | .star a, x => .seq (a.deriv x) (.star a)

/-- Acceptance of a word by repeated derivation. -/
def reAccepts (r : RE) (cs : List Char) : Bool := (cs.foldl RE.deriv r).nullable

/-- Search semantics of re.search: some contiguous segment of the word is
accepted, expressed as full acceptance of the pattern framed by arbitrary
padding on both sides. -/
def reSearch (r : RE) (cs : List Char) : Bool :=
  reAccepts (RE.seq (RE.star RE.dot) (RE.seq r (RE.star RE.dot))) cs

/-- Postfix loop of the pattern reader: consume any run of star, plus and
question operators after an atom. -/
def postLoop : RE → List Char → RE × List Char
  | r, '*' :: rest => postLoop (RE.star r) rest
  | r, '+' :: rest => postLoop (RE.seq r (RE.star r)) rest
  | r, '?' :: rest => postLoop (RE.alt r RE.eps) rest
  | r, rest => (r, rest)

mutual

/-- Alternation level of the pattern reader: a sequence, optionally
followed by a vertical bar and another alternation. -/
def parseAlt : ℕ → List Char → Option (RE × List Char)
  | 0, _ => none
  | fuel + 1, cs =>
    match parseSeq fuel cs with
    | none => none
    | some (r, rest) =>
      match rest with
      | '|' :: rest2 =>
        match parseAlt fuel rest2 with
        | none => none
        | some (r2, rest3) => some (RE.alt r r2, rest3)
      | _ => some (r, rest)

/-- Sequence level of the pattern reader: zero or more postfix items; an
empty sequence reads as the empty-word expression. -/
def parseSeq : ℕ → List Char → Option (RE × List Char)
  | 0, _ => none
  | fuel + 1, cs =>
    match parseAtom fuel cs with
    | none => some (RE.eps, cs)
    | some (r, rest) =>
      let (r2, rest2) := postLoop r rest
      match parseSeq fuel rest2 with
      | none => none
      | some (r3, rest3) => some (RE.seq r2 r3, rest3)

/-- Atom level of the pattern reader: a parenthesised alternation, the
wildcard dot, an escaped non-alphanumeric character, or a plain literal.
Characters that open constructs outside the modelled subset (classes,
anchors, bounded repeats, alphanumeric escapes) make the reader fail, as
do the sequence terminators, which end the enclosing sequence instead. -/
def parseAtom : ℕ → List Char → Option (RE × List Char)
  | 0, _ => none
  | fuel + 1, cs =>
    match cs with
    | [] => none
    | '(' :: rest =>
      match parseAlt fuel rest with
      | some (r, ')' :: rest2) => some (r, rest2)
      | _ => none
    | '.' :: rest => some (RE.dot, rest)
    | '\\' :: c :: rest => if c.isAlphanum then none else some (RE.chr c, rest)
    | c :: rest =>
      if c ∈ [')', '|', '*', '+', '?', '[', ']', '{', '}', '^', '$', '\\']
      then none else some (RE.chr c, rest)

end

/-- Pattern reader entry point: read a whole pattern, requiring all input
to be consumed. -/
def parseRE (cs : List Char) : Option RE :=
  match parseAlt (cs.length * 4 + 8) cs with
  | some (r, []) => some r
  | _ => none

/-- Lowercased character sequence of a string; spelled through the
character list so that proofs can evaluate it. -/
def lowerChars (s : String) : List Char := s.data.map Char.toLower

/-- Embedding of Series.str.contains(pat, case=False, na=False) as used on
the Description and Notes columns (src/App.py:43-44).  The pandas call
interprets the pattern as a regular expression (regex=True is the default)
and matches case-insensitively; the model lowercases both sides, which
agrees with re.IGNORECASE on the modelled subset.  Patterns outside the
subset are outside the model and yield false here, where Python would
raise re.error or apply richer semantics.  The na=False flag concerns
missing values, which cannot occur because the cleanup loop fills every
field. -/
def str_contains_ci (pat hay : String) : Bool :=
  match parseRE (lowerChars pat) with
  | some r => reSearch r (lowerChars hay)
  | none => false

/-- Type filter stage of filter_transactions (src/App.py:38-39): with a
type given, keep the rows of that type; the call sites pass None for the
All choice, which skips the stage. -/
def typeStage (t? : Option TxType) (df : List (Tx × ℚ)) : List (Tx × ℚ) :=
  match t? with
  | some t => df.filter fun r => decide (r.1.type = t)
  | none => df

/-- Category filter stage of filter_transactions (src/App.py:40-41): with
a nonempty category list given, keep the rows whose category is a member;
None and the empty list are falsy in Python and skip the stage. -/
def catStage (cs? : Option (List String)) (df : List (Tx × ℚ)) : List (Tx × ℚ) :=
  match cs? with
  | some cs => if cs.isEmpty then df else df.filter fun r => cs.contains r.1.category
  | none => df

/-- Keyword filter stage of filter_transactions (src/App.py:42-44): with a
nonempty keyword given, keep the rows whose description or notes match it
case-insensitively; None and the empty string are falsy in Python and skip
the stage. -/
def kwStage (kw? : Option String) (df : List (Tx × ℚ)) : List (Tx × ℚ) :=
  match kw? with
  | some kw =>
      if kw = "" then df
      else df.filter fun r =>
        str_contains_ci kw r.1.description || str_contains_ci kw r.1.notes
  | none => df

/-- Date range filter stage of filter_transactions (src/App.py:45-47):
with a range given, keep the rows whose date lies between the bounds,
inclusive on both ends. -/
def dateStage (dr? : Option (ℤ × ℤ)) (df : List (Tx × ℚ)) : List (Tx × ℚ) :=
  match dr? with
  | some dr => df.filter fun r => decide (dr.1 ≤ r.1.date) && decide (r.1.date ≤ dr.2)
  | none => df

/-- Embedding of filter_transactions (src/App.py:34-48): build the
running-balance view, then apply the four optional stages in order.  The
early return on an empty frame in the source is behaviourally the same as
running the stages on the empty list. -/
def filter_transactions (t? : Option TxType) (cs? : Option (List String))
    (kw? : Option String) (dr? : Option (ℤ × ℤ)) (txs : List Tx) :
    List (Tx × ℚ) :=
  dateStage dr? (kwStage kw? (catStage cs? (typeStage t? (calculate_running_balance txs))))

/-- Predicate form of the type stage: the conjunct the stage contributes;
an absent filter contributes the trivial conjunct. -/
def typePred (t? : Option TxType) (r : Tx × ℚ) : Bool :=
  match t? with
  | some t => decide (r.1.type = t)
  | none => true

/-- Predicate form of the category stage; an absent or empty set
contributes the trivial conjunct. -/
def catPred (cs? : Option (List String)) (r : Tx × ℚ) : Bool :=
  match cs? with
  | some cs => cs.isEmpty || cs.contains r.1.category
  | none => true

/-- Predicate form of the keyword stage; an absent or empty keyword
contributes the trivial conjunct. -/
def kwPred (kw? : Option String) (r : Tx × ℚ) : Bool :=
  match kw? with
  | some kw =>
      decide (kw = "") ||
        (str_contains_ci kw r.1.description || str_contains_ci kw r.1.notes)
  | none => true

/-- Predicate form of the date range stage; an absent range contributes
the trivial conjunct. -/
def datePred (dr? : Option (ℤ × ℤ)) (r : Tx × ℚ) : Bool :=
  match dr? with
  | some dr => decide (dr.1 ≤ r.1.date) && decide (r.1.date ≤ dr.2)
  | none => true

/-- Conjunction of the four optional filter predicates, in the order the
stages run. -/
def row_matches (t? : Option TxType) (cs? : Option (List String))
    (kw? : Option String) (dr? : Option (ℤ × ℤ)) (r : Tx × ℚ) : Bool :=
  typePred t? r && catPred cs? r && kwPred kw? r && datePred dr? r

/-- Decidable check of the chronological order the specification ascribes
to the view: dates nondecreasing along the sequence. -/
def chronoOrdered : List Tx → Bool
  | [] => true
  | [_] => true
  | a :: b :: rest => decide (a.date ≤ b.date) && chronoOrdered (b :: rest)

/-- Helper for the literal substring test: the first list is an initial
segment of the second. -/
def listStartsWith : List Char → List Char → Bool
  | [], _ => true
  | _ :: _, [] => false
  | p :: ps, c :: cs => p = c && listStartsWith ps cs

/-- Helper for the literal substring test: the first list occurs
contiguously inside the second. -/
def listContainsSub (pat : List Char) : List Char → Bool
  | [] => listStartsWith pat []
  | c :: cs => listStartsWith pat (c :: cs) || listContainsSub pat cs

/-- Case-insensitive literal substring test, written after the words of
the specification for the keyword filter ("case-insensitive substring
match against description OR notes"); it is compared against the regex
semantics the code actually applies. -/
def substr_ci (pat hay : String) : Bool :=
  listContainsSub (lowerChars pat) (lowerChars hay)

/-- Running-balance recurrence the specification states for an annotated
sequence, from a given previous balance: each annotated value equals the
previous one plus the amount for Income and minus it for Expense. -/
def specBalanceRecurrenceFrom (b : ℚ) : List (Tx × ℚ) → Prop
  | [] => True
  | (tx, bal) :: rest =>
      bal = (if tx.type = TxType.Income then b + tx.amount else b - tx.amount)
        ∧ specBalanceRecurrenceFrom bal rest

/-- Running-balance recurrence of the specification, starting from the
zero balance. -/
def specBalanceRecurrence (rows : List (Tx × ℚ)) : Prop :=
  specBalanceRecurrenceFrom 0 rows

/-- Income record fixture for the concrete examples. -/
def txI (a : ℚ) (d : ℤ) : Tx :=
  { type := TxType.Income, description := "inc", amount := a,
    category := "Sales", subcategory := "", date := d, notes := "" }

/-- Expense record fixture with the category Rent. -/
def txE (a : ℚ) (d : ℤ) : Tx :=
  { type := TxType.Expense, description := "exp", amount := a,
    category := "Rent", subcategory := "", date := d, notes := "" }

/-- Expense record fixture with the category Utilities. -/
def txU (a : ℚ) (d : ℤ) : Tx :=
  { type := TxType.Expense, description := "util", amount := a,
    category := "Utilities", subcategory := "", date := d, notes := "" }

lemma length_insertByDate (tx : Tx) (l : List Tx) :
    (insertByDate tx l).length = l.length + 1 := by
  induction l with
  | nil => rfl
  | cons y ys ih =>
      simp only [insertByDate]
      split <;> simp [ih]

lemma length_sortByDate (txs : List Tx) : (sortByDate txs).length = txs.length := by
  induction txs with
  | nil => rfl
  | cons tx txs ih => simp [sortByDate, length_insertByDate, ih]

lemma length_balancesFrom (b : ℚ) (l : List Tx) :
    (balancesFrom b l).length = l.length := by
  induction l generalizing b with
  | nil => rfl
  | cons tx txs ih => simp [balancesFrom, ih]

lemma view_map_fst (txs : List Tx) :
    (calculate_running_balance txs).map Prod.fst = txs := by
  apply List.map_fst_zip
  simp [balances, length_balancesFrom, length_sortByDate]

lemma view_map_snd (txs : List Tx) :
    (calculate_running_balance txs).map Prod.snd = balances (sortByDate txs) := by
  apply List.map_snd_zip
  simp [balances, length_balancesFrom, length_sortByDate]

lemma mem_insertByDate {a tx : Tx} {l : List Tx} (h : a ∈ insertByDate tx l) :
    a = tx ∨ a ∈ l := by
  induction l with
  | nil =>
      simp only [insertByDate, List.mem_singleton] at h
      exact Or.inl h
  | cons y ys ih =>
      simp only [insertByDate] at h
      split at h
      · rcases List.mem_cons.mp h with h | h
        · exact Or.inr (List.mem_cons.mpr (Or.inl h))
        · rcases ih h with h | h
          · exact Or.inl h
          · exact Or.inr (List.mem_cons.mpr (Or.inr h))
      · rcases List.mem_cons.mp h with h | h
        · exact Or.inl h
        · exact Or.inr h

lemma sorted_insertByDate {tx : Tx} {l : List Tx}
    (h : List.Sorted (fun a b : Tx => a.date ≤ b.date) l) :
    List.Sorted (fun a b : Tx => a.date ≤ b.date) (insertByDate tx l) := by
  induction l with
  | nil => simp [insertByDate]
  | cons y ys ih =>
      rw [List.sorted_cons] at h
      obtain ⟨hy, hys⟩ := h
      simp only [insertByDate]
      split
      · rename_i hlt
        rw [List.sorted_cons]
        refine ⟨?_, ih hys⟩
        intro b hb
        rcases mem_insertByDate hb with rfl | hb
        · exact le_of_lt hlt
        · exact hy b hb
      · rename_i hge
        rw [not_lt] at hge
        rw [List.sorted_cons]
        refine ⟨?_, List.sorted_cons.mpr ⟨hy, hys⟩⟩
        intro b hb
        rcases List.mem_cons.mp hb with rfl | hb
        · exact hge
        · exact le_trans hge (hy b hb)

lemma sorted_sortByDate (txs : List Tx) :
    List.Sorted (fun a b : Tx => a.date ≤ b.date) (sortByDate txs) := by
  induction txs with
  | nil => simp [sortByDate]
  | cons tx txs ih => exact sorted_insertByDate ih

lemma perm_insertByDate (tx : Tx) (l : List Tx) :
    (insertByDate tx l).Perm (tx :: l) := by
  induction l with
  | nil => exact List.Perm.refl _
  | cons y ys ih =>
      simp only [insertByDate]
      split
      · exact (List.Perm.cons y ih).trans (List.Perm.swap tx y ys)
      · exact List.Perm.refl _

lemma perm_sortByDate (txs : List Tx) : txs.Perm (sortByDate txs) := by
  induction txs with
  | nil => exact List.Perm.refl _
  | cons tx txs ih =>
      exact (List.Perm.cons tx ih).trans (perm_insertByDate tx (sortByDate txs)).symm

lemma typeStage_eq (t? : Option TxType) (df : List (Tx × ℚ)) :
    typeStage t? df = df.filter (typePred t?) := by
  cases t? with
  | none =>
      show df = df.filter fun _ => true
      rw [List.filter_true]
  | some t => rfl

lemma catStage_eq (cs? : Option (List String)) (df : List (Tx × ℚ)) :
    catStage cs? df = df.filter (catPred cs?) := by
  cases cs? with
  | none =>
      show df = df.filter fun _ => true
      rw [List.filter_true]
  | some cs =>
      show (if cs.isEmpty then df else df.filter fun r => cs.contains r.1.category) = _
      by_cases h : cs.isEmpty
      · rw [if_pos h]
        have hc : List.filter (catPred (some cs)) df = List.filter (fun _ => true) df :=
          List.filter_congr fun x _ => by simp [catPred, h]
        rw [hc, List.filter_true]
      · rw [if_neg h, Bool.not_eq_true] at *
        exact List.filter_congr fun x _ => by simp [catPred, h]

lemma kwStage_eq (kw? : Option String) (df : List (Tx × ℚ)) :
    kwStage kw? df = df.filter (kwPred kw?) := by
  cases kw? with
  | none =>
      show df = df.filter fun _ => true
      rw [List.filter_true]
  | some kw =>
      show (if kw = "" then df
        else df.filter fun r =>
          str_contains_ci kw r.1.description || str_contains_ci kw r.1.notes) = _
      by_cases h : kw = ""
      · rw [if_pos h]
        have hc : List.filter (kwPred (some kw)) df = List.filter (fun _ => true) df :=
          List.filter_congr fun x _ => by simp [kwPred, h]
        rw [hc, List.filter_true]
      · rw [if_neg h]
        exact List.filter_congr fun x _ => by simp [kwPred, h]

lemma dateStage_eq (dr? : Option (ℤ × ℤ)) (df : List (Tx × ℚ)) :
    dateStage dr? df = df.filter (datePred dr?) := by
  cases dr? with
  | none =>
      show df = df.filter fun _ => true
      rw [List.filter_true]
  | some dr => rfl

lemma filter_transactions_eq (t? : Option TxType) (cs? : Option (List String))
    (kw? : Option String) (dr? : Option (ℤ × ℤ)) (txs : List Tx) :
    filter_transactions t? cs? kw? dr? txs
      = (calculate_running_balance txs).filter (row_matches t? cs? kw? dr?) := by
  unfold filter_transactions
  rw [typeStage_eq, catStage_eq, kwStage_eq, dateStage_eq,
    List.filter_filter, List.filter_filter, List.filter_filter]
  apply List.filter_congr
  intro r _
  simp only [row_matches]
  cases typePred t? r <;> cases catPred cs? r <;> cases kwPred kw? r <;>
    cases datePred dr? r <;> rfl

lemma filter_transactions_sublist (t? : Option TxType) (cs? : Option (List String))
    (kw? : Option String) (dr? : Option (ℤ × ℤ)) (txs : List Tx) :
    List.Sublist (filter_transactions t? cs? kw? dr? txs) (calculate_running_balance txs) := by
  rw [filter_transactions_eq]
  exact List.filter_sublist _

/-- Summary of the empty collection: all sums are empty, so the triple is
all zero. -/
lemma summary_nil : summary ([] : List Tx) = (0, 0, 0) := by
  norm_num [summary, total_income, total_expense]

/-- The two transaction types are distinct, as a rewrite rule for reducing
the conditionals of the balance fold at concrete inputs. -/
lemma expense_ne_income : (TxType.Expense = TxType.Income) = False :=
  eq_false (by decide)

/-- C1: the claim states that the running-balance view is ordered
chronologically by date ascending with Income before Expense among ties.
Counterexample: two records inserted in the order (date 2, then date 1)
are returned by calculate_running_balance in insertion order, so the
dates along the view are not ascending. -/
theorem C1_counterexample :
    chronoOrdered ((calculate_running_balance [txI 5 2, txI 7 1]).map Prod.fst)
      = false := by
  decide

/-- C1 (amended): the view returned by calculate_running_balance lists the
records in insertion order, not chronologically, and its balance column is
the running-balance fold over a date-ascending permutation of the records
(the date-sorted copy the code iterates over), attached to the rows
positionally.  The sort key is the date alone, so no Income-before-Expense
rule is applied; the order among records sharing a date inside the sorted
copy is not asserted, because the pandas default sort kind does not
guarantee stability. -/
theorem C1_amended_view_order (txs : List Tx) :
    (calculate_running_balance txs).map Prod.fst = txs
    ∧ ∃ l : List Tx, txs.Perm l
        ∧ List.Sorted (fun a b : Tx => a.date ≤ b.date) l
        ∧ (calculate_running_balance txs).map Prod.snd = balances l :=
  ⟨view_map_fst txs,
    sortByDate txs, perm_sortByDate txs, sorted_sortByDate txs, view_map_snd txs⟩

/-- C2: the claim states that deletion leaves the identities of the other
records unchanged.  Counterexample: with records at identities 0, 1 and 2,
deleting identity 1 compacts the list, after which identity 2 is out of
range for both update and delete, and identity 1 resolves to the record
that was stored at identity 2. -/
theorem C2_counterexample :
    delete_transaction 1 [txI 1 1, txI 2 1, txI 3 1] = ([txI 1 1, txI 3 1], none)
    ∧ delete_transaction 2 [txI 1 1, txI 3 1] = ([txI 1 1, txI 3 1], some 2)
    ∧ edit_transaction 2 (txI 2 1) [txI 1 1, txI 3 1] = ([txI 1 1, txI 3 1], some 2)
    ∧ (delete_transaction 1 [txI 1 1, txI 2 1, txI 3 1]).1[1]? = some (txI 3 1) := by
  decide

/-- C2 (amended): deleting a valid identity i removes the record at i and
renumbers the later records: identities below i still resolve to their
original records, identities from i on resolve to the record previously
stored one position later, and the largest previously valid identity no
longer resolves. -/
theorem C2_amended_delete_shifts (txs : List Tx) (i j : ℕ)
    (hi : i < txs.length) :
    (delete_transaction i txs).1.length = txs.length - 1
    ∧ (delete_transaction i txs).2 = none
    ∧ (j < i → (delete_transaction i txs).1[j]? = txs[j]?)
    ∧ (i ≤ j → (delete_transaction i txs).1[j]? = txs[j + 1]?) := by
  unfold delete_transaction
  rw [if_pos hi]
  refine ⟨by simp [List.length_eraseIdx, hi], rfl, ?_, ?_⟩
  · intro hj
    rw [List.getElem?_eraseIdx, if_pos hj]
  · intro hj
    rw [List.getElem?_eraseIdx, if_neg (by omega)]

/-- Witness for the amended C2 statement at a concrete input: deleting
identity 1 from three records keeps the record of identity 0 in place and
moves the record of old identity 2 to identity 1. -/
theorem C2_amended_delete_shifts_witness :
    (delete_transaction 1 [txI 1 1, txI 2 1, txI 3 1]).1[0]? = some (txI 1 1)
    ∧ (delete_transaction 1 [txI 1 1, txI 2 1, txI 3 1]).1[1]? = some (txI 3 1) := by
  constructor
  · rw [(C2_amended_delete_shifts [txI 1 1, txI 2 1, txI 3 1] 1 0 (by decide)).2.2.1
      (by decide)]
    rfl
  · rw [(C2_amended_delete_shifts [txI 1 1, txI 2 1, txI 3 1] 1 1 (by decide)).2.2.2
      (by decide)]
    rfl

/-- C3: evaluation of the code at the failing input.  With the records
inserted as (Income 10 at date 2) then (Income 100 at date 1), the view
annotates the first record (amount 10) with the balance 100 and the second
with 110: the balance column is computed over the date-sorted order but
assigned positionally to the insertion-ordered rows, so the annotated
sequence violates the recurrence of the claim.  At the example input of
the claim, whose insertion order is already date-sorted, the balance
column is [100, 60, 70] as stated. -/
theorem C3_code_bug_eval :
    calculate_running_balance [txI 10 2, txI 100 1]
      = [(txI 10 2, 100), (txI 100 1, 110)]
    ∧ ¬ specBalanceRecurrence (calculate_running_balance [txI 10 2, txI 100 1])
    ∧ (calculate_running_balance [txI 100 1, txE 40 1, txI 10 2]).map Prod.snd
      = [100, 60, 70] := by
  have hv : calculate_running_balance [txI 10 2, txI 100 1]
      = [(txI 10 2, 100), (txI 100 1, 110)] := by
    norm_num [calculate_running_balance, balances, balancesFrom, sortByDate,
      insertByDate, txI]
  refine ⟨hv, ?_, ?_⟩
  · rw [hv]
    norm_num [specBalanceRecurrence, specBalanceRecurrenceFrom, txI]
  · norm_num [calculate_running_balance, balances, balancesFrom, sortByDate,
      insertByDate, txI, txE, expense_ne_income]

/-- C4: validation of the transaction forms: submission fails naming the
description field exactly when the description is empty, fails naming the
amount field exactly when the description is nonempty and the amount is
not positive, succeeds by appending otherwise, and leaves the collection
unchanged on any failure; in particular an Income submission with amount 0
and description "x" fails on the amount field without growing the
collection.  The type always lies in {Income, Expense} because the
selectbox offers exactly those two values, so no type failure can occur. -/
theorem C4_form_validation (t : TxType) (d : String) (a : ℚ)
    (c s : String) (dt : ℤ) (n : String) (txs : List Tx) :
    (d = "" → form_submit t d a c s dt n txs = (txs, some VField.description))
    ∧ (d ≠ "" → a ≤ 0 → form_submit t d a c s dt n txs = (txs, some VField.amount))
    ∧ (d ≠ "" → ¬ a ≤ 0 →
        form_submit t d a c s dt n txs
          = (add_transaction t d a c s dt n txs, none)) := by
  unfold form_submit
  refine ⟨fun h1 => ?_, fun h1 h2 => ?_, fun h1 h2 => ?_⟩
  · rw [if_pos h1]
  · rw [if_neg h1, if_pos h2]
  · rw [if_neg h1, if_neg h2]

/-- Witness for the C4 statement at the concrete input of the claim: the
Income submission with amount 0 and description "x" reports the amount
field and returns the collection unchanged. -/
theorem C4_form_validation_witness :
    form_submit TxType.Income "x" 0 "" "" 0 "" [] = ([], some VField.amount) :=
  (C4_form_validation TxType.Income "x" 0 "" "" 0 "" []).2.1 (by decide) le_rfl

/-- C5: for an identity outside the current collection, both update and
delete report the failure carrying that identity and return the
collection unchanged. -/
theorem C5_not_found (i : ℕ) (tx : Tx) (txs : List Tx) (h : txs.length ≤ i) :
    edit_transaction i tx txs = (txs, some i)
    ∧ delete_transaction i txs = (txs, some i) := by
  unfold edit_transaction delete_transaction
  rw [if_neg (by omega), if_neg (by omega)]
  exact ⟨rfl, rfl⟩

/-- Witness for the C5 statement: identity 3 does not exist in a
one-record collection, and both operations report it and leave the
collection unchanged. -/
theorem C5_not_found_witness :
    edit_transaction 3 (txI 2 1) [txI 1 1] = ([txI 1 1], some 3)
    ∧ delete_transaction 3 [txI 1 1] = ([txI 1 1], some 3) :=
  C5_not_found 3 (txI 2 1) [txI 1 1] (by decide)

/-- C6: the summary triple is invariant under permutation of the
collection, its net component is the difference of its income and expense
components, and the empty collection yields the all-zero triple. -/
theorem C6_summary_perm (txs txs2 : List Tx) (h : txs.Perm txs2) :
    summary txs = summary txs2
    ∧ (summary txs).2.2 = (summary txs).1 - (summary txs).2.1
    ∧ summary ([] : List Tx) = (0, 0, 0) := by
  have hi : total_income txs = total_income txs2 :=
    List.Perm.sum_eq (List.Perm.map _ (List.Perm.filter _ h))
  have he : total_expense txs = total_expense txs2 :=
    List.Perm.sum_eq (List.Perm.map _ (List.Perm.filter _ h))
  exact ⟨by simp [summary, hi, he], rfl, summary_nil⟩

/-- Witness for the C6 statement at a concrete permutation of a two-record
collection. -/
theorem C6_summary_perm_witness :
    summary [txI 5 1, txE 3 2] = summary [txE 3 2, txI 5 1]
    ∧ (summary [txI 5 1, txE 3 2]).2.2
      = (summary [txI 5 1, txE 3 2]).1 - (summary [txI 5 1, txE 3 2]).2.1
    ∧ summary ([] : List Tx) = (0, 0, 0) :=
  C6_summary_perm [txI 5 1, txE 3 2] [txE 3 2, txI 5 1] (by decide)

/-- C7: the claim describes the keyword predicate as a case-insensitive
substring match.  Counterexample: pandas str.contains interprets the
keyword as a regular expression by default, so the keyword "." keeps a
record whose description is "inc" and whose notes are empty, although "."
is not a substring of either; the filter output therefore differs from
the substring reading of the claim at this input. -/
theorem C7_counterexample :
    filter_transactions none none (some ".") none [txI 1 1]
      ≠ (calculate_running_balance [txI 1 1]).filter
          (fun r => substr_ci "." r.1.description || substr_ci "." r.1.notes)
    ∧ filter_transactions none none (some ".") none [txI 1 1] = [(txI 1 1, 1)]
    ∧ substr_ci "." "inc" = false := by
  have hv : calculate_running_balance [txI 1 1] = [(txI 1 1, 1)] := by
    norm_num [calculate_running_balance, balances, balancesFrom, sortByDate,
      insertByDate, txI]
  have hkw : str_contains_ci "." "inc" = true := by decide
  have hkw2 : str_contains_ci "." "" = false := by decide
  have hsub : substr_ci "." "inc" = false := by decide
  have hsub2 : substr_ci "." "" = false := by decide
  have hf : filter_transactions none none (some ".") none [txI 1 1]
      = [(txI 1 1, 1)] := by
    rw [filter_transactions_eq, hv]
    simp [row_matches, typePred, catPred, kwPred, datePred, txI, hkw, hkw2]
  refine ⟨?_, hf, hsub⟩
  rw [hf, hv]
  simp [txI, hsub, hsub2]

/-- C7 (amended): filter_transactions keeps exactly the rows of the
running-balance view satisfying the conjunction of the supplied
predicates, where an absent type filter, an absent or empty category set,
an absent or empty keyword and an absent date range impose no restriction
and the date range is inclusive on both ends; the keyword predicate is a
case-insensitive regular-expression search (the pandas default) against
description OR notes, which agrees with a substring match only for
keywords free of regex metacharacters.  In particular, filtering by type
Expense and category set {"Rent"} on a collection with one matching and
two non-matching records returns exactly the matching record. -/
theorem C7_amended_filter_conjunction (t? : Option TxType)
    (cs? : Option (List String)) (kw? : Option String)
    (dr? : Option (ℤ × ℤ)) (txs : List Tx) :
    filter_transactions t? cs? kw? dr? txs
      = (calculate_running_balance txs).filter (row_matches t? cs? kw? dr?)
    ∧ filter_transactions (some TxType.Expense) (some ["Rent"]) none none
        [txE 40 1, txI 100 1, txU 30 1]
      = [(txE 40 1, -40)] :=
  ⟨filter_transactions_eq t? cs? kw? dr? txs, by
    have hv : calculate_running_balance [txE 40 1, txI 100 1, txU 30 1]
        = [(txE 40 1, -40), (txI 100 1, 60), (txU 30 1, 30)] := by
      norm_num [calculate_running_balance, balances, balancesFrom, sortByDate,
        insertByDate, txI, txE, txU, expense_ne_income]
    rw [filter_transactions_eq, hv]
    simp [row_matches, typePred, catPred, kwPred, datePred, txI, txE, txU]⟩

/-- C8: the claim states that filtered results appear in chronological
order with the tie-break.  Counterexample: with two records inserted in
the order (date 5, then date 3) and no restriction supplied, the filter
returns them in insertion order, so the dates along the output are not
ascending. -/
theorem C8_counterexample :
    chronoOrdered
        ((filter_transactions none none none none [txE 8 5, txI 9 3]).map Prod.fst)
      = false := by
  decide

/-- C8 (amended): for every filter argument combination the output is a
subsequence of the running-balance view, so it preserves the order of
that view, which is insertion order rather than chronological order, and
every output row carries the balance value computed over the full
unfiltered collection; an empty result is returned without error when
nothing matches, as at the concrete input where an Income type filter
matches no record. -/
theorem C8_amended_filter_order (t? : Option TxType)
    (cs? : Option (List String)) (kw? : Option String)
    (dr? : Option (ℤ × ℤ)) (txs : List Tx) :
    List.Sublist (filter_transactions t? cs? kw? dr? txs)
        (calculate_running_balance txs)
    ∧ filter_transactions (some TxType.Income) none none none [txE 8 5, txE 2 1]
      = [] :=
  ⟨filter_transactions_sublist t? cs? kw? dr? txs, by decide⟩

/-- C9: the empty collection yields the all-zero summary triple and the
empty running-balance view, and both operations are total. -/
theorem C9_empty_collection :
    summary ([] : List Tx) = (0, 0, 0)
    ∧ calculate_running_balance [] = [] :=
  ⟨summary_nil, rfl⟩

/-- C10: the add_transaction helpers of both source files append exactly
one record built verbatim from the given arguments and never fail: they
are total functions in the model, they perform no field validation, and a
record with amount 0 or an empty description is stored as given; the
checks on the amount and description exist only in the surrounding form
code. -/
theorem C10_add_unvalidated (t : TxType) (d : String) (a : ℚ)
    (c s : String) (dt : ℤ) (n : String) (txs : List Tx)
    (txs2 : List TxSimple) :
    add_transaction t d a c s dt n txs
      = txs ++ [{ type := t, description := d, amount := a, category := c,
                  subcategory := s, date := dt, notes := n }]
    ∧ (add_transaction t d a c s dt n txs).length = txs.length + 1
    ∧ add_transaction_simple t d a c s txs2
      = txs2 ++ [{ type := t, description := d, amount := a, category := c,
                   subcategory := s }]
    ∧ (add_transaction_simple t d a c s txs2).length = txs2.length + 1
    ∧ add_transaction TxType.Income "" 0 "" "" 0 "" []
      = [{ type := TxType.Income, description := "", amount := 0, category := "",
           subcategory := "", date := 0, notes := "" }] := by
  refine ⟨?_, ?_, ?_, ?_, by decide⟩
  · simp [add_transaction]
  · simp [add_transaction]
  · simp [add_transaction_simple]
  · simp [add_transaction_simple]
